import Mathlib

/-!
Verification of the SSR-subscription-to-Clash converter (`ssr.py`).

The Python program is shallowly embedded: each parser becomes a total Lean
function returning `Option` (where `none` models the Python functions
returning the falsy `{}` after a swallowed exception), Python `str` is
Lean `String`, bytes are `List Nat`, and Python dicts holding
heterogeneous JSON-ish values are association lists over an inductive
`JVal`.  The CPython standard-library functions the program relies on
(`base64.b64decode` in non-strict mode, `base64.urlsafe_b64decode`,
`bytes.decode("utf-8")`, `json.loads`, `urllib.parse.unquote`,
`urllib.parse.parse_qs`, `int(...)`, `str.split`, `re.findall` for the
fixed link pattern) are modelled by executable Lean functions that follow
the CPython algorithms (in particular the quad-position state machine of
`binascii.a2b_base64` with its tolerance for excess padding and its
skipping of non-alphabet characters).
-/

/-! ## Small character / string helpers -/

/-- Python whitespace for `str.strip` and the regex class `\s`
(ASCII part: space, tab, newline, carriage return, vertical tab, form feed). -/
def pyIsSpace (c : Char) : Bool :=
  c = ' ' || c = Char.ofNat 9 || c = Char.ofNat 10 || c = Char.ofNat 13 ||
  c = Char.ofNat 11 || c = Char.ofNat 12

/-- `sep` is a leading segment of `cs`. -/
def leadMatch : List Char → List Char → Bool
  | [], _ => true
  | _ :: _, [] => false
  | a :: as, b :: bs => a = b && leadMatch as bs

/-- Python `s.startswith(pre)`. -/
def pyStartsWith (s pre : String) : Bool :=
  leadMatch pre.data s.data

/-- Python `s[n:]` (character based). -/
def pyDropChars (s : String) (n : Nat) : String :=
  String.mk (s.data.drop n)

/-- Python `len(s)` (number of characters). -/
def pyLen (s : String) : Nat :=
  s.data.length

/-- Python `s.strip()` restricted to ASCII whitespace. -/
def pyStrip (s : String) : String :=
  String.mk (((s.data.dropWhile pyIsSpace).reverse.dropWhile pyIsSpace).reverse)

/-- ASCII lower-casing, modelling `str.lower` on the strings that matter here. -/
def pyLowerChar (c : Char) : Char :=
  if 65 ≤ c.toNat ∧ c.toNat ≤ 90 then Char.ofNat (c.toNat + 32) else c

def pyLower (s : String) : String :=
  String.mk (s.data.map pyLowerChar)

/-! ## Python-style JSON-ish values -/

/-- Values appearing in the Python dicts of the converter: JSON scalars,
arrays and objects.  JSON numbers are restricted to integers (the link
grammar only ever carries integer ports / alter-ids). -/
inductive JVal where
  | null
  | b (x : Bool)
  | i (n : Int)
  | s (text : String)
  | arr (xs : List JVal)
  | dict (fields : List (String × JVal))

/-- A Clash proxy dict: ordered association list, as built by the Python code. -/
abbrev Proxy := List (String × JVal)

/-- First-occurrence lookup in an association list (Python dicts are built
here without duplicate keys, insertion order preserved). -/
def pyGet (d : List (String × JVal)) (k : String) : Option JVal :=
  match d with
  | [] => none
  | (k', v) :: rest => if k' = k then some v else pyGet rest k

/-- Python `d.get(k, dflt)`. -/
def pyGetD (d : List (String × JVal)) (k : String) (dflt : JVal) : JVal :=
  (pyGet d k).getD dflt

/-- Python truthiness of a value. -/
def pyTruthy : JVal → Bool
  | .null => false
  | .b x => x
  | .i n => n ≠ 0
  | .s t => t ≠ ""
  | .arr xs => !xs.isEmpty
  | .dict fs => !fs.isEmpty

/-- Python `a or b`. -/
def pyOr (a b : JVal) : JVal :=
  if pyTruthy a then a else b

/-- Python `str(...)` for the scalar values that reach f-strings in the
converter (containers never do on the runs the claims quantify over;
for them an empty rendering is used). -/
def pyStr : JVal → String
  | .null => "None"
  | .b true => "True"
  | .b false => "False"
  | .i n => toString n
  | .s t => t
  | .arr _ => ""
  | .dict _ => ""

/-! ## Python `int(...)` on strings -/

/-- Digit-and-underscore run of a Python integer literal: underscores only
between digits.  `seen` records whether the previous character was a digit. -/
def pyDigitsAux : List Char → Bool → Nat → Option Nat
  | [], seen, acc => if seen then some acc else none
  | c :: rest, seen, acc =>
    if c.isDigit then pyDigitsAux rest true (acc * 10 + (c.toNat - 48))
    else if c = '_' then
      if seen then pyDigitsAux rest false acc else none
    else none

/-- Python `int(s)` for base-10 string input: strips whitespace, allows one
sign, digits with single interior underscores.  `none` models `ValueError`. -/
def pyInt? (s : String) : Option Int :=
  match (pyStrip s).data with
  | [] => none
  | c :: rest =>
    if c = '-' then (pyDigitsAux rest false 0).map (fun n => -(n : Int))
    else if c = '+' then
      match rest with
      | [] => none
      | _ => (pyDigitsAux rest false 0).map (fun n => (n : Int))
    else (pyDigitsAux (c :: rest) false 0).map (fun n => (n : Int))

/-- Python `int(x)` applied to a decoded JSON value, as in
`int(data.get("port", 0))`.  `none` models `TypeError`/`ValueError`. -/
def pyIntOfJVal : JVal → Option Int
  | .i n => some n
  | .b true => some 1
  | .b false => some 0
  | .s t => pyInt? t
  | _ => none

/-! ## CPython base64 decoding (`binascii.a2b_base64`, non-strict mode) -/

/-- Value of a standard-alphabet base64 character. -/
def b64CharVal (c : Char) : Option Nat :=
  let n := c.toNat
  if 65 ≤ n ∧ n ≤ 90 then some (n - 65)
  else if 97 ≤ n ∧ n ≤ 122 then some (n - 71)
  else if 48 ≤ n ∧ n ≤ 57 then some (n + 4)
  else if n = 43 then some 62
  else if n = 47 then some 63
  else none

/-- The quad-position state machine of CPython `binascii.a2b_base64` in
non-strict mode: non-alphabet characters are skipped, a `=` seen with at
least two data characters in the current quad and enough accumulated pads
terminates the decode successfully, otherwise pads are counted and data
characters reset the pad counter; ending mid-quad is an error. -/
def a2bAux : List Char → Nat → Nat → Nat → List Nat → Option (List Nat)
  | [], quadPos, _, _, acc => if quadPos = 0 then some acc.reverse else none
  | c :: rest, quadPos, leftc, pads, acc =>
    if c.toNat = 61 then
      if 2 ≤ quadPos ∧ 4 ≤ quadPos + (pads + 1) then some acc.reverse
      else a2bAux rest quadPos leftc (pads + 1) acc
    else
      match b64CharVal c with
      | none => a2bAux rest quadPos leftc pads acc
      | some v =>
        match quadPos with
        | 0 => a2bAux rest 1 v 0 acc
        | 1 => a2bAux rest 2 (v % 16) 0 ((leftc * 4 + v / 16) :: acc)
        | 2 => a2bAux rest 3 (v % 4) 0 ((leftc * 16 + v / 4) :: acc)
        | _ => a2bAux rest 0 0 0 ((leftc * 64 + v) :: acc)

/-- `base64.b64decode` on a `str`: the argument must be pure ASCII
(otherwise `ValueError`), then the non-strict `a2b_base64` machine runs. -/
def pyB64decodeBytes (s : String) : Option (List Nat) :=
  if s.data.all (fun c => c.toNat ≤ 127) then a2bAux s.data 0 0 0 []
  else none

/-- The character translation of `base64.urlsafe_b64decode`. -/
def urlsafeTr (c : Char) : Char :=
  if c = '-' then '+' else if c = '_' then '/' else c

/-- `base64.urlsafe_b64decode` on a `str`. -/
def pyUrlsafeB64decodeBytes (s : String) : Option (List Nat) :=
  if s.data.all (fun c => c.toNat ≤ 127) then a2bAux (s.data.map urlsafeTr) 0 0 0 []
  else none

/-! ## UTF-8 decoding (`bytes.decode("utf-8")`, strict) -/

/-- Decode one UTF-8 encoded code point from the head of a byte list,
rejecting overlong forms, surrogates and out-of-range code points exactly
as CPython's UTF-8 codec does. -/
def utf8Step : List Nat → Option (Char × List Nat)
  | [] => none
  | b1 :: rest =>
    if b1 < 128 then some (Char.ofNat b1, rest)
    else if b1 < 194 then none
    else if b1 ≤ 223 then
      match rest with
      | b2 :: rest2 =>
        if 128 ≤ b2 ∧ b2 ≤ 191 then
          some (Char.ofNat ((b1 - 192) * 64 + (b2 - 128)), rest2)
        else none
      | [] => none
    else if b1 ≤ 239 then
      match rest with
      | b2 :: b3 :: rest3 =>
        let lo2 := if b1 = 224 then 160 else 128
        let hi2 := if b1 = 237 then 159 else 191
        if lo2 ≤ b2 ∧ b2 ≤ hi2 ∧ 128 ≤ b3 ∧ b3 ≤ 191 then
          some (Char.ofNat ((b1 - 224) * 4096 + (b2 - 128) * 64 + (b3 - 128)), rest3)
        else none
      | _ => none
    else if b1 ≤ 244 then
      match rest with
      | b2 :: b3 :: b4 :: rest4 =>
        let lo2 := if b1 = 240 then 144 else 128
        let hi2 := if b1 = 244 then 143 else 191
        if lo2 ≤ b2 ∧ b2 ≤ hi2 ∧ 128 ≤ b3 ∧ b3 ≤ 191 ∧ 128 ≤ b4 ∧ b4 ≤ 191 then
          some (Char.ofNat ((b1 - 240) * 262144 + (b2 - 128) * 4096 + (b3 - 128) * 64 + (b4 - 128)),
            rest4)
        else none
      | _ => none
    else none

/-- Strict UTF-8 decoding of a whole byte list (fuelled loop over
`utf8Step`; the fuel is an upper bound on the number of code points). -/
def utf8DecodeAux : Nat → List Nat → Option (List Char)
  | _, [] => some []
  | 0, _ :: _ => none
  | fuel + 1, bs =>
    match utf8Step bs with
    | some (c, rest) => (utf8DecodeAux fuel rest).map (fun cs => c :: cs)
    | none => none

/-- `bytes.decode("utf-8")` with strict error handling. -/
def pyUtf8Decode (bs : List Nat) : Option String :=
  (utf8DecodeAux bs.length bs).map String.mk

/-- UTF-8 decoding with `errors="replace"`: undecodable positions yield
U+FFFD and resume one byte later. -/
def utf8Replace : Nat → List Nat → List Char
  | _, [] => []
  | 0, _ :: _ => []
  | fuel + 1, bs =>
    match utf8Step bs with
    | some (c, rest) => c :: utf8Replace fuel rest
    | none =>
      match bs with
      | [] => []
      | _ :: rest => Char.ofNat 65533 :: utf8Replace fuel rest

/-- `base64.b64decode(s).decode("utf-8")` as one step. -/
def b64TextStd (s : String) : Option String :=
  (pyB64decodeBytes s).bind pyUtf8Decode

/-- `base64.urlsafe_b64decode(s).decode("utf-8")` as one step. -/
def b64TextUrlsafe (s : String) : Option String :=
  (pyUrlsafeB64decodeBytes s).bind pyUtf8Decode

/-! ## `SSRToClashConverter._safe_b64decode` -/

/-- The padding step of `_safe_b64decode`: `padding = 4 - len(data) % 4`,
appended only when `padding < 4` (it is always nonzero). -/
def padB64 (s : String) : String :=
  let padding := 4 - pyLen s % 4
  if padding < 4 then s ++ String.mk (List.replicate padding '=') else s

/-- `_safe_b64decode`: pad, try the url-safe decode (including the UTF-8
step), fall back to the standard decode, and return `""` when everything
fails. -/
def _safe_b64decode (s : String) : String :=
  let d := padB64 s
  match b64TextUrlsafe d with
  | some t => t
  | none =>
    match b64TextStd d with
    | some t => t
    | none => ""

/-! ## String splitting (Python `str.split` / `str.rsplit`) -/

/-- Split at the first occurrence of (non-empty) `sep`:
`some (before, after)`, or `none` when `sep` does not occur.  A
`x.split(sep, 1)` guarded by `sep in x` is modelled by one match on this. -/
def splitOnce (sep : List Char) : List Char → Option (List Char × List Char)
  | [] => none
  | c :: rest =>
    if leadMatch sep (c :: rest) then some ([], (c :: rest).drop sep.length)
    else (splitOnce sep rest).map (fun p => (c :: p.1, p.2))

/-- Split at the last occurrence of the character `c` (`x.rsplit(c, 1)`). -/
def rsplitOnce (c : Char) (cs : List Char) : Option (List Char × List Char) :=
  match splitOnce [c] cs.reverse with
  | none => none
  | some (a, b) => some (b.reverse, a.reverse)

def pySplitAllAux (sep : List Char) : Nat → List Char → List (List Char)
  | 0, cs => [cs]
  | fuel + 1, cs =>
    match splitOnce sep cs with
    | none => [cs]
    | some (a, b) => a :: pySplitAllAux sep fuel b

/-- Python `x.split(sep)` for a non-empty separator. -/
def pySplitAll (sep : List Char) (cs : List Char) : List (List Char) :=
  pySplitAllAux sep (cs.length + 1) cs

/-! ## Percent decoding and query strings (`urllib.parse`) -/

def hexVal (c : Char) : Option Nat :=
  let n := c.toNat
  if 48 ≤ n ∧ n ≤ 57 then some (n - 48)
  else if 97 ≤ n ∧ n ≤ 102 then some (n - 87)
  else if 65 ≤ n ∧ n ≤ 70 then some (n - 55)
  else none

/-- Maximal run of `%XX` escapes at the head, as raw bytes. -/
def pctBytes : List Char → List Nat × List Char
  | c :: h1 :: h2 :: rest =>
    if c = '%' then
      match hexVal h1, hexVal h2 with
      | some a, some b =>
        let p := pctBytes rest
        ((a * 16 + b) :: p.1, p.2)
      | _, _ => ([], c :: h1 :: h2 :: rest)
    else ([], c :: h1 :: h2 :: rest)
  | cs => ([], cs)

def pyUnquoteAux : Nat → List Char → List Char
  | 0, _ => []
  | _, [] => []
  | fuel + 1, c :: rest =>
    if c = '%' then
      match pctBytes (c :: rest) with
      | ([], _) => c :: pyUnquoteAux fuel rest
      | (bs, rest') => utf8Replace bs.length bs ++ pyUnquoteAux fuel rest'
    else c :: pyUnquoteAux fuel rest

/-- `urllib.parse.unquote`: decode `%XX` runs as UTF-8 with replacement,
leave malformed escapes untouched, do not touch `+`. -/
def pyUnquote (s : String) : String :=
  String.mk (pyUnquoteAux (s.data.length + 1) s.data)

/-- `urllib.parse.unquote_plus` (used inside `parse_qs`). -/
def pyUnquotePlus (s : String) : String :=
  pyUnquote (String.mk (s.data.map (fun c => if c = '+' then ' ' else c)))

/-- `urllib.parse.parse_qs` flattened to its ordered pair list: split on
`&`, skip empty chunks, skip chunks without `=` and chunks with a blank
value, percent-plus-decode names and values. -/
def pyParseQsl (qs : String) : List (String × String) :=
  (pySplitAll ['&'] qs.data).filterMap (fun nv =>
    if nv.isEmpty then none
    else
      match splitOnce ['='] nv with
      | none => none
      | some (n, v) =>
        if v.isEmpty then none
        else some (pyUnquotePlus (String.mk n), pyUnquotePlus (String.mk v)))

/-- `parse_qs(qs).get(k, [None])[0]`: the first value listed under `k`. -/
def pyQsGet (params : List (String × String)) (k : String) : Option String :=
  (params.find? (fun p => p.1 == k)).map (fun p => p.2)

example : pyParseQsl "a=1&b=2&a=3" = [("a", "1"), ("b", "2"), ("a", "3")] := by decide
example : pyQsGet (pyParseQsl "a=1&b=2&a=3") "a" = some "1" := by decide
example : pyParseQsl "r" = [] := by decide
example : pyParseQsl "a=&b=1" = [("b", "1")] := by decide
example : pyParseQsl "a=%41+x&b=a;c=d" = [("a", "A x"), ("b", "a;c=d")] := by decide
example : pyUnquote "a%41%zz%" = "aA%zz%" := by decide
example : pySplitAll ['/', '?'] "a/???".data = ["a".data, "??".data] := by decide
example : rsplitOnce ':' "a:b:8080".data = some ("a:b".data, "8080".data) := by decide

/-! ## JSON (`json.loads`) -/

def cQuote : Char := Char.ofNat 34
def cBackslash : Char := Char.ofNat 92
def cLBrace : Char := Char.ofNat 123
def cRBrace : Char := Char.ofNat 125

def jsonWsChar (c : Char) : Bool :=
  c = ' ' || c = Char.ofNat 9 || c = Char.ofNat 10 || c = Char.ofNat 13

/-- Single-character JSON string escapes. -/
def jEscChar (e : Char) : Option Char :=
  if e = cQuote then some cQuote
  else if e = cBackslash then some cBackslash
  else if e = '/' then some '/'
  else if e = 'b' then some (Char.ofNat 8)
  else if e = 'f' then some (Char.ofNat 12)
  else if e = 'n' then some (Char.ofNat 10)
  else if e = 'r' then some (Char.ofNat 13)
  else if e = 't' then some (Char.ofNat 9)
  else none

/-- JSON string literal body (after the opening quote): content and rest
after the closing quote.  `\uXXXX` escapes are decoded, surrogate pairs
combined; unescaped control characters are rejected (strict mode). -/
def jStringAux : Nat → List Char → Option (List Char × List Char)
  | 0, _ => none
  | _, [] => none
  | fuel + 1, c :: rest =>
    if c = cQuote then some ([], rest)
    else if c = cBackslash then
      match rest with
      | [] => none
      | e :: rest2 =>
        match jEscChar e with
        | some ch => (jStringAux fuel rest2).map (fun p => (ch :: p.1, p.2))
        | none =>
          if e = 'u' then
            match rest2 with
            | h1 :: h2 :: h3 :: h4 :: rest3 =>
              match hexVal h1, hexVal h2, hexVal h3, hexVal h4 with
              | some a, some b, some c4, some d =>
                let n := a * 4096 + b * 256 + c4 * 16 + d
                if n < 55296 ∨ 57343 < n then
                  (jStringAux fuel rest3).map (fun p => (Char.ofNat n :: p.1, p.2))
                else if n ≤ 56319 then
                  match rest3 with
                  | e2 :: u2 :: g1 :: g2 :: g3 :: g4 :: rest4 =>
                    if e2 = cBackslash ∧ u2 = 'u' then
                      match hexVal g1, hexVal g2, hexVal g3, hexVal g4 with
                      | some a2, some b2, some c2, some d2 =>
                        let m := a2 * 4096 + b2 * 256 + c2 * 16 + d2
                        if 56320 ≤ m ∧ m ≤ 57343 then
                          (jStringAux fuel rest4).map
                            (fun p =>
                              (Char.ofNat (65536 + (n - 55296) * 1024 + (m - 56320)) :: p.1, p.2))
                        else none
                      | _, _, _, _ => none
                    else none
                  | _ => none
                else none
              | _, _, _, _ => none
            | _ => none
          else none
    else if c.toNat < 32 then none
    else (jStringAux fuel rest).map (fun p => (c :: p.1, p.2))

def natOfDigits (ds : List Char) : Nat :=
  ds.foldl (fun acc c => acc * 10 + (c.toNat - 48)) 0

/-- JSON integer magnitude: digits without leading zero; a following
`.`/`e`/`E` (a float) is not modelled and fails the parse. -/
def jNumMag (cs : List Char) : Option (Nat × List Char) :=
  let ds := cs.takeWhile Char.isDigit
  match ds with
  | [] => none
  | d0 :: dTail =>
    if d0 = '0' ∧ ¬dTail.isEmpty then none
    else
      let rest := cs.drop ds.length
      match rest with
      | r :: _ =>
        if r = '.' ∨ r = 'e' ∨ r = 'E' then none else some (natOfDigits ds, rest)
      | [] => some (natOfDigits ds, rest)

def jNumber (cs : List Char) : Option (Int × List Char) :=
  match cs with
  | c :: rest =>
    if c = '-' then (jNumMag rest).map (fun p => (-(p.1 : Int), p.2))
    else (jNumMag cs).map (fun p => ((p.1 : Int), p.2))
  | [] => none

/-- Insert with Python-dict semantics: replace in place or append. -/
def insertKey (d : List (String × JVal)) (k : String) (v : JVal) : List (String × JVal) :=
  match d with
  | [] => [(k, v)]
  | (k', v') :: rest => if k' = k then (k, v) :: rest else (k', v') :: insertKey rest k v

mutual

def jValueAux : Nat → List Char → Option (JVal × List Char)
  | 0, _ => none
  | fuel + 1, cs0 =>
    let cs := cs0.dropWhile jsonWsChar
    match cs with
    | [] => none
    | c :: rest =>
      if c = cQuote then
        (jStringAux (rest.length + 1) rest).map (fun p => (JVal.s (String.mk p.1), p.2))
      else if c = cLBrace then
        let cs2 := rest.dropWhile jsonWsChar
        match cs2 with
        | c2 :: rest2 => if c2 = cRBrace then some (.dict [], rest2) else jObjEntries fuel cs2 []
        | [] => none
      else if c = '[' then
        let cs2 := rest.dropWhile jsonWsChar
        match cs2 with
        | c2 :: rest2 => if c2 = ']' then some (.arr [], rest2) else jArrElems fuel cs2 []
        | [] => none
      else if leadMatch "true".data cs then some (.b true, cs.drop 4)
      else if leadMatch "false".data cs then some (.b false, cs.drop 5)
      else if leadMatch "null".data cs then some (.null, cs.drop 4)
      else (jNumber cs).map (fun p => (JVal.i p.1, p.2))

def jObjEntries : Nat → List Char → List (String × JVal) → Option (JVal × List Char)
  | 0, _, _ => none
  | fuel + 1, cs, acc =>
    match cs.dropWhile jsonWsChar with
    | c :: rest =>
      if c = cQuote then
        match jStringAux (rest.length + 1) rest with
        | none => none
        | some (k, rest2) =>
          match rest2.dropWhile jsonWsChar with
          | c2 :: rest3 =>
            if c2 = ':' then
              match jValueAux fuel rest3 with
              | none => none
              | some (v, rest4) =>
                let acc' := insertKey acc (String.mk k) v
                match rest4.dropWhile jsonWsChar with
                | c3 :: rest5 =>
                  if c3 = ',' then jObjEntries fuel rest5 acc'
                  else if c3 = cRBrace then some (.dict acc', rest5)
                  else none
                | [] => none
            else none
          | [] => none
      else none
    | [] => none

def jArrElems : Nat → List Char → List JVal → Option (JVal × List Char)
  | 0, _, _ => none
  | fuel + 1, cs, acc =>
    match jValueAux fuel cs with
    | none => none
    | some (v, rest) =>
      match rest.dropWhile jsonWsChar with
      | c :: rest2 =>
        if c = ',' then jArrElems fuel rest2 (acc ++ [v])
        else if c = ']' then some (.arr (acc ++ [v]), rest2)
        else none
      | [] => none

end

/-- `json.loads`: parse one JSON document, allowing only trailing
whitespace. -/
def json_loads (s : String) : Option JVal :=
  match jValueAux (2 * s.data.length + 8) s.data with
  | some (v, rest) => if (rest.dropWhile jsonWsChar).isEmpty then some v else none
  | none => none

example : json_loads (_safe_b64decode "eyJwcyI6ICJ4In0=") = some (.dict [("ps", JVal.s "x")]) :=
  rfl

example :
    json_loads (_safe_b64decode "eyJwcyI6ICJBIiwgImFkZCI6ICJzIiwgInBvcnQiOiAxLCAiaWQiOiAidSJ9") =
      some (.dict [("ps", JVal.s "A"), ("add", JVal.s "s"), ("port", JVal.i 1), ("id", JVal.s "u")]) :=
  rfl

/-! ## `parse_vmess_url` -/

/-- Python `value == "ws"`-style comparison of a dict value with a string
(equal only when the value is that very string). -/
def jvalEqStr (v : JVal) (t : String) : Bool :=
  match v with
  | .s u => u == t
  | _ => false

/-- The vmess proxy dict, keys in the insertion order of the Python code. -/
def mkVmessProxy (name server uuid cipher : JVal) (port alterId : Int) (tlsOn : Bool)
    (netPart : List (String × JVal)) : Proxy :=
  [("name", name), ("type", JVal.s "vmess"), ("server", server), ("port", JVal.i port),
   ("uuid", uuid), ("alterId", JVal.i alterId), ("cipher", cipher)] ++
  (if tlsOn then [("tls", JVal.b true)] else []) ++ netPart

/-- The `network` / `ws-opts` tail of the vmess proxy dict. -/
def vmessNetPart (netV pathV hostV : JVal) : List (String × JVal) :=
  if jvalEqStr netV "ws" then
    let wsOpts :=
      (if pyTruthy pathV then [("path", pathV)] else []) ++
      (if pyTruthy hostV then [("headers", JVal.dict [("Host", hostV)])] else [])
    [("network", JVal.s "ws")] ++
      (if wsOpts.isEmpty then [] else [("ws-opts", JVal.dict wsOpts)])
  else if pyTruthy netV then [("network", netV)] else []

/-- Body of `parse_vmess_url` after the JSON object is in hand.  The
failure points are `int(...)` on the port, `int(... or 0)` on the
alter-id, and `.lower()` on a truthy non-string `tls` value; every other
field is passed through with `or`-defaults. -/
def vmessFromJson (data : List (String × JVal)) : Option Proxy :=
  match pyIntOfJVal (pyGetD data "port" (JVal.i 0)) with
  | none => none
  | some port =>
    match pyIntOfJVal (pyOr (pyGetD data "aid" (JVal.i 0)) (JVal.i 0)) with
    | none => none
    | some alterId =>
      match pyOr (pyGetD data "tls" JVal.null) (JVal.s "") with
      | JVal.s tlsRaw =>
        let name := pyOr (pyGetD data "ps" JVal.null)
          (JVal.s (pyStr (pyGetD data "add" (JVal.s "")) ++ "-" ++
            pyStr (pyGetD data "port" (JVal.s ""))))
        let server := pyGetD data "add" JVal.null
        let uuid := pyGetD data "id" JVal.null
        let cipher := pyOr (pyGetD data "scy" JVal.null) (JVal.s "auto")
        let netV := pyOr (pyGetD data "net" JVal.null) (JVal.s "tcp")
        let hostV := pyOr (pyGetD data "host" JVal.null) (JVal.s "")
        let pathV := pyOr (pyGetD data "path" JVal.null) (JVal.s "")
        some (mkVmessProxy name server uuid cipher port alterId (pyLower tlsRaw == "tls")
          (vmessNetPart netV pathV hostV))
      | _ => none

/-- `parse_vmess_url`: prefix check, lenient base64, `json.loads` (a
non-object document makes `data.get` raise, hence `none`). -/
def parse_vmess_url (url : String) : Option Proxy :=
  if pyStartsWith url "vmess://" then
    let decoded := _safe_b64decode (pyDropChars url 8)
    if decoded = "" then none
    else
      match json_loads decoded with
      | some (JVal.dict data) => vmessFromJson data
      | _ => none
  else none

/-! ## `parse_ss_url` -/

def ssProxyMk (name server : String) (port : Int) (method password : String) : Proxy :=
  [("name", JVal.s name), ("type", JVal.s "ss"), ("server", JVal.s server),
   ("port", JVal.i port), ("cipher", JVal.s method), ("password", JVal.s password)]

/-- `parse_ss_url`.  Each Python `if sep in x: x.split(sep, 1)` pair is
modelled by a single match on `splitOnce`. -/
def parse_ss_url (url : String) : Option Proxy :=
  if pyStartsWith url "ss://" then
    let raw0 := (pyDropChars url 5).data
    let hashSplit := splitOnce ['#'] raw0
    let raw1 := match hashSplit with | some p => p.1 | none => raw0
    let name0 := match hashSplit with | some p => pyUnquote (String.mk p.2) | none => ""
    let raw2 := match splitOnce ['?'] raw1 with | some p => p.1 | none => raw1
    match
      (match splitOnce ['@'] raw2 with
       | some p => some p
       | none => splitOnce ['@'] (_safe_b64decode (String.mk raw2)).data) with
    | none => none
    | some (userinfo, serverPart) =>
      match
        (match splitOnce [':'] userinfo with
         | some p => some p
         | none => splitOnce [':'] (_safe_b64decode (String.mk userinfo)).data) with
      | none => none
      | some (methodCs, passwordCs) =>
        match rsplitOnce ':' serverPart with
        | none => none
        | some (serverCs, portCs) =>
          match pyInt? (String.mk portCs) with
          | none => none
          | some port =>
            let server := String.mk serverCs
            let name := if name0 = "" then server ++ ":" ++ toString port else name0
            some (ssProxyMk name server port (String.mk methodCs) (String.mk passwordCs))
  else none

/-! ## `parse_ssr_url` and `ssr_to_clash_proxy` -/

/-- The raw SSR config dict produced by `parse_ssr_url` (fixed keys, so a
structure). -/
structure SsrConfig where
  server : String
  port : Int
  password : String
  method : String
  protocol : String
  obfs : String
  obfs_param : String
  protocol_param : String
  name : String

/-- `base64.b64decode(x + "==").decode("utf-8")`, the decode used for the
SSR remainder and for every SSR sub-field. -/
def ssrB64Decode (x : String) : Option String :=
  (pyB64decodeBytes (x ++ "==")).bind pyUtf8Decode

/-- Decode one optional query field: absent stays absent, a present field
that fails to decode fails the whole link (`none`). -/
def decOptField (o : Option String) : Option (Option String) :=
  match o with
  | none => some none
  | some v =>
    match ssrB64Decode v with
    | some d => some (some d)
    | none => none

/-- Query-parameter phase of `parse_ssr_url`: `password` overrides the
colon-field password, `obfsparam` / `protoparam` / `remarks` fill the
optional fields, all base64-decoded, each in the order of the Python
code. -/
def ssrApplyParams (server : String) (port : Int)
    (password0 protocol method obfs : String) (qs : String) : Option SsrConfig :=
  let params := pyParseQsl qs
  match decOptField (pyQsGet params "password") with
  | none => none
  | some pwOpt =>
    match decOptField (pyQsGet params "obfsparam") with
    | none => none
    | some obOpt =>
      match decOptField (pyQsGet params "protoparam") with
      | none => none
      | some prOpt =>
        match decOptField (pyQsGet params "remarks") with
        | none => none
        | some rmOpt =>
          let nameDflt := server ++ ":" ++ toString port
          some { server := server, port := port,
                 password := pwOpt.getD password0,
                 method := method, protocol := protocol, obfs := obfs,
                 obfs_param := obOpt.getD "", protocol_param := prOpt.getD "",
                 name := match rmOpt with
                   | some r => if r = "" then nameDflt else r
                   | none => nameDflt }

/-- Field phase of `parse_ssr_url` on the decoded body: split once on
`/?`, at least six colon fields (extras beyond the sixth unused),
integer port, base64 password. -/
def parseSsrBody (decoded : String) : Option SsrConfig :=
  match pySplitAll ['/', '?'] decoded.data with
  | [a, b] =>
    match pySplitAll [':'] a with
    | s0 :: s1 :: s2 :: s3 :: s4 :: s5 :: _ =>
      match pyInt? (String.mk s1) with
      | none => none
      | some port =>
        match ssrB64Decode (String.mk s5) with
        | none => none
        | some pw =>
          ssrApplyParams (String.mk s0) port pw (String.mk s2) (String.mk s3)
            (String.mk s4) (String.mk b)
    | _ => none
  | _ => none

/-- `parse_ssr_url`: strip the `ssr://` token when present, decode the
whole remainder with `base64.b64decode(... + "==")` (not the lenient
codec), then parse the body. -/
def parse_ssr_url (url : String) : Option SsrConfig :=
  let r := if pyStartsWith url "ssr://" then pyDropChars url 6 else url
  match ssrB64Decode r with
  | none => none
  | some decoded => parseSsrBody decoded

/-- `ssr_to_clash_proxy`: the single-pass name-collision rename against
the already-accepted proxies, then the Clash SSR dict. -/
def ssr_to_clash_proxy (proxies : List Proxy) (cfg : SsrConfig) : Proxy :=
  let name :=
    if proxies.any (fun p => jvalEqStr (pyGetD p "name" (JVal.s "")) cfg.name) then
      cfg.name ++ "_" ++ toString cfg.port
    else cfg.name
  [("name", JVal.s name), ("type", JVal.s "ssr"), ("server", JVal.s cfg.server),
   ("port", JVal.i cfg.port), ("cipher", JVal.s cfg.method),
   ("password", JVal.s cfg.password), ("protocol", JVal.s cfg.protocol),
   ("obfs", JVal.s cfg.obfs)] ++
  (if cfg.protocol_param ≠ "" then [("protocol-param", JVal.s cfg.protocol_param)] else []) ++
  (if cfg.obfs_param ≠ "" then [("obfs-param", JVal.s cfg.obfs_param)] else [])

/-! ## The conversion loop (`convert_subscription_to_clash`) -/

/-- Scheme dispatch of the conversion loop body: which proxy dict (if
any) the iteration for `link` produces, given the proxies accepted so
far (needed for the SSR name-collision rename). -/
def dispatchLink (proxies : List Proxy) (link : String) : Option Proxy :=
  if pyStartsWith link "vmess://" then parse_vmess_url link
  else if pyStartsWith link "ssr://" then
    match parse_ssr_url link with
    | some cfg => some (ssr_to_clash_proxy proxies cfg)
    | none => none
  else if pyStartsWith link "ss://" then parse_ss_url link
  else none

/-- One iteration of the conversion loop: dispatch on the scheme token,
append the proxy when one was produced (`if proxy:`). -/
def processLink (proxies : List Proxy) (link : String) : List Proxy :=
  match dispatchLink proxies link with
  | some p => proxies ++ [p]
  | none => proxies

/-- One attempt of the regex alternation
`vmess://[^\s]+|ssr://[^\s]+|ss://[^\s]+` at the head of the text. -/
def linkStart (cs : List Char) (pre : String) : Option (List Char × List Char) :=
  if leadMatch pre.data cs then
    let rest0 := cs.drop pre.data.length
    let body := rest0.takeWhile (fun c => !pyIsSpace c)
    if body.isEmpty then none
    else some (pre.data ++ body, rest0.drop body.length)
  else none

def tryLink (cs : List Char) : Option (List Char × List Char) :=
  match linkStart cs "vmess://" with
  | some r => some r
  | none =>
    match linkStart cs "ssr://" with
    | some r => some r
    | none => linkStart cs "ss://"

/-- `re.findall` for the link pattern: leftmost non-overlapping matches. -/
def findLinksAux : Nat → List Char → List String
  | 0, _ => []
  | _, [] => []
  | fuel + 1, c :: rest =>
    match tryLink (c :: rest) with
    | some (link, remaining) => String.mk link :: findLinksAux fuel remaining
    | none => findLinksAux fuel rest

def findLinks (s : String) : List String :=
  findLinksAux (s.data.length + 1) s.data

/-- Link extraction of `convert_subscription_to_clash`: when the stripped
content does not visibly start with a scheme token, try one lenient
base64 unwrap of the stripped content and use it if non-empty. -/
def extractLinks (content : String) : List String :=
  let st := pyStrip content
  let content1 :=
    if !pyStartsWith st "vmess://" && !pyStartsWith st "ssr://" && !pyStartsWith st "ss://" then
      let d := _safe_b64decode st
      if d ≠ "" then d else content
    else content
  findLinks content1

/-- Observable outcome of one conversion run: the early return on empty
fetched content, the "no links found" return, or a produced document. -/
inductive ConvertOutcome where
  | emptyContent
  | noLinks
  | ok
  deriving DecidableEq

/-- `convert_subscription_to_clash`, starting from the fetched
subscription body: the final proxies list plus the reported outcome. -/
def convert_subscription_to_clash (content : String) : List Proxy × ConvertOutcome :=
  if content = "" then ([], ConvertOutcome.emptyContent)
  else
    let urls := extractLinks content
    if urls.isEmpty then ([], ConvertOutcome.noLinks)
    else (urls.foldl processLink [], ConvertOutcome.ok)

example :
    parse_ss_url "ss://aes-128-gcm:pw@h:80" =
      some [("name", JVal.s "h:80"), ("type", JVal.s "ss"), ("server", JVal.s "h"),
        ("port", JVal.i 80), ("cipher", JVal.s "aes-128-gcm"), ("password", JVal.s "pw")] :=
  rfl

example :
    parse_ss_url "ss://YWVzLTI1Ni1nY206cGFzcw==@example.com:8388#Test" =
      some [("name", JVal.s "Test"), ("type", JVal.s "ss"), ("server", JVal.s "example.com"),
        ("port", JVal.i 8388), ("cipher", JVal.s "aes-256-gcm"), ("password", JVal.s "pass")] :=
  rfl

example :
    parse_vmess_url "vmess://eyJwcyI6ICJ4In0=" =
      some [("name", JVal.s "x"), ("type", JVal.s "vmess"), ("server", JVal.null),
        ("port", JVal.i 0), ("uuid", JVal.null), ("alterId", JVal.i 0),
        ("cipher", JVal.s "auto"), ("network", JVal.s "tcp")] :=
  rfl

example : _safe_b64decode "YQ==" = "a" := by decide

/-! ## Lookup and inversion lemmas -/

theorem mkVmessProxy_get_port (name server uuid cipher : JVal) (port alterId : Int)
    (tlsOn : Bool) (netPart : List (String × JVal)) :
    pyGet (mkVmessProxy name server uuid cipher port alterId tlsOn netPart) "port" =
      some (JVal.i port) := by
  simp [mkVmessProxy, pyGet]

theorem mkVmessProxy_get_wsopts (name server uuid cipher : JVal) (port alterId : Int)
    (tlsOn : Bool) (netPart : List (String × JVal)) :
    pyGet (mkVmessProxy name server uuid cipher port alterId tlsOn netPart) "ws-opts" =
      pyGet netPart "ws-opts" := by
  cases tlsOn <;> simp [mkVmessProxy, pyGet]

theorem mkVmessProxy_get_network (name server uuid cipher : JVal) (port alterId : Int)
    (tlsOn : Bool) (netPart : List (String × JVal)) :
    pyGet (mkVmessProxy name server uuid cipher port alterId tlsOn netPart) "network" =
      pyGet netPart "network" := by
  cases tlsOn <;> simp [mkVmessProxy, pyGet]

theorem ssProxyMk_get_port (name server : String) (port : Int) (method password : String) :
    pyGet (ssProxyMk name server port method password) "port" = some (JVal.i port) := by
  simp [ssProxyMk, pyGet]

theorem ssProxyMk_get_server (name server : String) (port : Int) (method password : String) :
    pyGet (ssProxyMk name server port method password) "server" = some (JVal.s server) := by
  simp [ssProxyMk, pyGet]

theorem ssr_to_clash_proxy_get_port (proxies : List Proxy) (cfg : SsrConfig) :
    pyGet (ssr_to_clash_proxy proxies cfg) "port" = some (JVal.i cfg.port) := by
  simp [ssr_to_clash_proxy, pyGet]

theorem ssr_to_clash_proxy_get_server (proxies : List Proxy) (cfg : SsrConfig) :
    pyGet (ssr_to_clash_proxy proxies cfg) "server" = some (JVal.s cfg.server) := by
  simp [ssr_to_clash_proxy, pyGet]

theorem vmessFromJson_shape {data : List (String × JVal)} {p : Proxy}
    (h : vmessFromJson data = some p) :
    ∃ name server uuid cipher port alterId tlsOn,
      p = mkVmessProxy name server uuid cipher port alterId tlsOn
        (vmessNetPart (pyOr (pyGetD data "net" JVal.null) (JVal.s "tcp"))
          (pyOr (pyGetD data "path" JVal.null) (JVal.s ""))
          (pyOr (pyGetD data "host" JVal.null) (JVal.s ""))) := by
  unfold vmessFromJson at h
  split at h
  · exact absurd h (by simp)
  · split at h
    · exact absurd h (by simp)
    · split at h
      · simp only [Option.some.injEq] at h
        exact ⟨_, _, _, _, _, _, _, h.symm⟩
      · exact absurd h (by simp)

theorem parse_vmess_shape {url : String} {p : Proxy} (h : parse_vmess_url url = some p) :
    ∃ data name server uuid cipher port alterId tlsOn netPart,
      json_loads (_safe_b64decode (pyDropChars url 8)) = some (JVal.dict data) ∧
      p = mkVmessProxy name server uuid cipher port alterId tlsOn netPart := by
  unfold parse_vmess_url at h
  split at h
  · simp only [] at h
    split at h
    · exact absurd h (by simp)
    · split at h
      · obtain ⟨name, server, uuid, cipher, port, alterId, tlsOn, rfl⟩ := vmessFromJson_shape h
        exact ⟨_, _, _, _, _, _, _, _, _, by assumption, rfl⟩
      · exact absurd h (by simp)
  · exact absurd h (by simp)

theorem parse_ss_shape {url : String} {p : Proxy} (h : parse_ss_url url = some p) :
    ∃ name server port method password, p = ssProxyMk name server port method password := by
  simp only [parse_ss_url] at h
  split at h
  · split at h
    · exact absurd h (by simp)
    · split at h
      · exact absurd h (by simp)
      · split at h
        · exact absurd h (by simp)
        · split at h
          · exact absurd h (by simp)
          · simp only [Option.some.injEq] at h
            exact ⟨_, _, _, _, _, h.symm⟩
  · exact absurd h (by simp)
example : _safe_b64decode "YQ" = "a" := by decide
example : _safe_b64decode "Pz8_" = "???" := by decide
example : _safe_b64decode "a" = "" := by decide
example : pyB64decodeBytes "YQ==YQ==" = some [97] := by decide
example : pyB64decodeBytes "YWJjZA=" = none := by decide
example : pyInt? " 42 " = some 42 := by decide
example : pyInt? "1_0" = some 10 := by decide
example : pyInt? "1__0" = none := by decide
example : pyInt? "4.5" = none := by decide
example : pyInt? "-7" = some (-7) := by decide

theorem dispatchLink_port {proxies : List Proxy} {link : String} {p : Proxy}
    (h : dispatchLink proxies link = some p) :
    ∃ n, pyGet p "port" = some (JVal.i n) := by
  unfold dispatchLink at h
  split at h
  · obtain ⟨_, _, _, _, _, port, _, _, _, _, rfl⟩ := parse_vmess_shape h
    exact ⟨port, mkVmessProxy_get_port _ _ _ _ _ _ _ _⟩
  · split at h
    · split at h
      · simp only [Option.some.injEq] at h
        subst h
        exact ⟨_, ssr_to_clash_proxy_get_port _ _⟩
      · exact absurd h (by simp)
    · split at h
      · obtain ⟨_, _, port, _, _, rfl⟩ := parse_ss_shape h
        exact ⟨port, ssProxyMk_get_port _ _ _ _ _⟩
      · exact absurd h (by simp)

/-! ## Claim C1 -/

/-- C1 counterexample: the `vmess://` link whose JSON body is
`{"ps": "x"}` (no `add`, no `port`) is not dropped; the conversion loop
appends a descriptor whose `server` is `None` and whose port is `0`,
i.e. a partially-populated descriptor reaches the output collection. -/
theorem C1_counterexample :
    processLink [] "vmess://eyJwcyI6ICJ4In0=" =
      [[("name", JVal.s "x"), ("type", JVal.s "vmess"), ("server", JVal.null),
        ("port", JVal.i 0), ("uuid", JVal.null), ("alterId", JVal.i 0),
        ("cipher", JVal.s "auto"), ("network", JVal.s "tcp")]] := rfl

/-- C1 (amended): the ss and ssr paths never emit a partially-populated
descriptor — any descriptor they produce carries a string `server` and an
integer `port` — but the vmess parser does not share this guarantee (see
the counterexample). -/
theorem C1_ss_ssr_always_populated :
    (∀ url p, parse_ss_url url = some p →
      (∃ server, pyGet p "server" = some (JVal.s server)) ∧
      (∃ port, pyGet p "port" = some (JVal.i port))) ∧
    (∀ proxies url cfg, parse_ssr_url url = some cfg →
      (∃ server, pyGet (ssr_to_clash_proxy proxies cfg) "server" = some (JVal.s server)) ∧
      (∃ port, pyGet (ssr_to_clash_proxy proxies cfg) "port" = some (JVal.i port))) := by
  constructor
  · intro url p h
    obtain ⟨name, server, port, method, password, rfl⟩ := parse_ss_shape h
    exact ⟨⟨server, ssProxyMk_get_server _ _ _ _ _⟩, ⟨port, ssProxyMk_get_port _ _ _ _ _⟩⟩
  · intro proxies url cfg _
    exact ⟨⟨cfg.server, ssr_to_clash_proxy_get_server _ _⟩,
      ⟨cfg.port, ssr_to_clash_proxy_get_port _ _⟩⟩

/-- C1 witness: both parts of the amended theorem applied at concrete
links (an explicit `ss://` link and the `ssr://` link used for C3's
well-formed case). -/
theorem C1_ss_ssr_always_populated_witness :
    ((∃ server, pyGet (ssProxyMk "h:80" "h" 80 "aes-128-gcm" "pw") "server" =
        some (JVal.s server)) ∧
      (∃ port, pyGet (ssProxyMk "h:80" "h" 80 "aes-128-gcm" "pw") "port" =
        some (JVal.i port))) ∧
    ((∃ server, pyGet (ssr_to_clash_proxy []
        { server := "h", port := 1, password := "a", method := "m", protocol := "p",
          obfs := "o", obfs_param := "", protocol_param := "a", name := "h:1" }) "server" =
        some (JVal.s server)) ∧
      (∃ port, pyGet (ssr_to_clash_proxy []
        { server := "h", port := 1, password := "a", method := "m", protocol := "p",
          obfs := "o", obfs_param := "", protocol_param := "a", name := "h:1" }) "port" =
        some (JVal.i port))) :=
  ⟨C1_ss_ssr_always_populated.1 "ss://aes-128-gcm:pw@h:80"
      (ssProxyMk "h:80" "h" 80 "aes-128-gcm" "pw") rfl,
    C1_ss_ssr_always_populated.2 [] "ssr://aDoxOnA6bTpvOllRLz9wcm90b3BhcmFtPVlR"
      { server := "h", port := 1, password := "a", method := "m", protocol := "p",
        obfs := "o", obfs_param := "", protocol_param := "a", name := "h:1" } rfl⟩

/-! ## Claim C5 -/

/-- C5 counterexample: a `vmess://` link declaring port `99999` is
converted and appended as-is; the output collection receives a
descriptor whose port lies outside `[1, 65535]`. -/
theorem C5_counterexample :
    (processLink []
        "vmess://eyJwcyI6ICJ5IiwgImFkZCI6ICJzIiwgInBvcnQiOiA5OTk5OSwgImlkIjogInUifQ==").map
      (fun p => pyGet p "port") = [some (JVal.i 99999)] ∧ (65535 : Int) < 99999 := by
  constructor
  · rfl
  · decide

/-- C5 (amended): every descriptor appended by the conversion loop does
carry an integer `port` field (coming from a successful Python `int`
conversion), but no range check against `[1, 65535]` is performed. -/
theorem C5_port_always_integer :
    ∀ proxies link, processLink proxies link = proxies ∨
      ∃ p, processLink proxies link = proxies ++ [p] ∧
        ∃ n, pyGet p "port" = some (JVal.i n) := by
  intro proxies link
  unfold processLink
  cases h : dispatchLink proxies link with
  | none => exact Or.inl rfl
  | some p => exact Or.inr ⟨p, rfl, dispatchLink_port h⟩

/-! ## Claim C2 -/

/-- C2 counterexample: two `vmess://` links both named `A` (ports 1 and
2).  The second descriptor is appended with its name still `A`, not
`A_2`: the collision rename does not apply to vmess insertions. -/
theorem C2_counterexample :
    (List.foldl processLink []
        ["vmess://eyJwcyI6ICJBIiwgImFkZCI6ICJzIiwgInBvcnQiOiAxLCAiaWQiOiAidSJ9",
         "vmess://eyJwcyI6ICJBIiwgImFkZCI6ICJzIiwgInBvcnQiOiAyLCAiaWQiOiAidSJ9"]).map
      (fun p => pyGet p "name") = [some (JVal.s "A"), some (JVal.s "A")] ∧
    JVal.s "A" ≠ JVal.s "A_2" := by
  constructor
  · rfl
  · intro h
    injection h with h1
    exact absurd h1 (by decide)

/-- C2 (amended): the `name_port` collision rename happens only when the
newly inserted descriptor comes from an `ssr://` link; in that case, if
the parsed config's name equals the name of a descriptor already in the
collection, the inserted descriptor is renamed to `<name>_<port>`. -/
theorem C2_rename_only_on_ssr_inserts :
    ∀ proxies url cfg,
      pyStartsWith url "vmess://" = false →
      pyStartsWith url "ssr://" = true →
      parse_ssr_url url = some cfg →
      proxies.any (fun p => jvalEqStr (pyGetD p "name" (JVal.s "")) cfg.name) = true →
      processLink proxies url = proxies ++ [ssr_to_clash_proxy proxies cfg] ∧
      pyGet (ssr_to_clash_proxy proxies cfg) "name" =
        some (JVal.s (cfg.name ++ "_" ++ toString cfg.port)) := by
  intro proxies url cfg h1 h2 h3 h4
  constructor
  · unfold processLink dispatchLink
    rw [h1, h2, h3]
    rfl
  · simp [ssr_to_clash_proxy, pyGet, h4]

/-- C2 witness: the amended rename applied to a concrete `ssr://` link
whose name `A:1` collides with an already-accepted descriptor. -/
theorem C2_rename_only_on_ssr_inserts_witness :
    processLink [[("name", JVal.s "A:1")]] "ssr://QToxOnA6bTpvOllRLz9y" =
      [[("name", JVal.s "A:1")],
        ssr_to_clash_proxy [[("name", JVal.s "A:1")]]
          { server := "A", port := 1, password := "a", method := "m", protocol := "p",
            obfs := "o", obfs_param := "", protocol_param := "", name := "A:1" }] ∧
    pyGet (ssr_to_clash_proxy [[("name", JVal.s "A:1")]]
        { server := "A", port := 1, password := "a", method := "m", protocol := "p",
          obfs := "o", obfs_param := "", protocol_param := "", name := "A:1" }) "name" =
      some (JVal.s "A:1_1") := by
  have h := C2_rename_only_on_ssr_inserts [[("name", JVal.s "A:1")]]
    "ssr://QToxOnA6bTpvOllRLz9y"
    { server := "A", port := 1, password := "a", method := "m", protocol := "p",
      obfs := "o", obfs_param := "", protocol_param := "", name := "A:1" }
    rfl rfl rfl rfl
  exact ⟨h.1, h.2.trans (by rfl)⟩

/-! ## Claim C3 -/

/-- C3 counterexample: the `ssr://` link with body
`h:1:p:m:o:YQ/?obfsparam=abcde` (an optional `obfsparam` whose base64
decode fails) is dropped entirely, while the same body with a decodable
optional field (`protoparam=YQ`) is emitted — so a failing optional
field does not merely degrade to absence. -/
theorem C3_counterexample :
    parse_ssr_url "ssr://aDoxOnA6bTpvOllRLz9vYmZzcGFyYW09YWJjZGU=" = none ∧
    parse_ssr_url "ssr://aDoxOnA6bTpvOllRLz9wcm90b3BhcmFtPVlR" =
      some { server := "h", port := 1, password := "a", method := "m", protocol := "p",
             obfs := "o", obfs_param := "", protocol_param := "a", name := "h:1" } :=
  ⟨rfl, rfl⟩

/-- C3 (amended): a base64-decode failure of a present optional query
field (here `obfsparam`) makes the whole link fail: the query phase of
the SSR parser returns an empty result, so the link is dropped rather
than emitted without the field. -/
theorem C3_optional_field_failure_drops_link :
    ∀ server port password0 protocol method obfs qs v,
      pyQsGet (pyParseQsl qs) "obfsparam" = some v →
      ssrB64Decode v = none →
      ssrApplyParams server port password0 protocol method obfs qs = none := by
  intro server port password0 protocol method obfs qs v hget hdec
  have hnone : decOptField (some v) = none := by simp [decOptField, hdec]
  simp only [ssrApplyParams]
  split
  · rfl
  · rw [hget, hnone]

/-- C3 witness: the amended statement applied at the concrete query
string `obfsparam=abcde`. -/
theorem C3_optional_field_failure_drops_link_witness :
    ssrApplyParams "h" 1 "a" "p" "m" "o" "obfsparam=abcde" = none :=
  C3_optional_field_failure_drops_link "h" 1 "a" "p" "m" "o" "obfsparam=abcde" "abcde" rfl rfl

/-! ## Claim C6 -/

/-- C6: the lenient codec is total by construction (it returns a
`String` for every input), and whenever both alphabet decodes of the
padded input fail — including failure of the UTF-8 text step, which is
part of `b64TextUrlsafe` / `b64TextStd` — it returns the empty string. -/
theorem C6_safe_b64decode_empty_on_failure :
    ∀ s, b64TextUrlsafe (padB64 s) = none → b64TextStd (padB64 s) = none →
      _safe_b64decode s = "" := by
  intro s h1 h2
  simp only [_safe_b64decode]
  rw [h1, h2]

/-- C6 witness: on input `"a"` (padded to `"a==="`, one dangling data
character) both decodes fail and the codec returns `""`. -/
theorem C6_safe_b64decode_empty_on_failure_witness :
    b64TextUrlsafe (padB64 "a") = none ∧ b64TextStd (padB64 "a") = none ∧
      _safe_b64decode "a" = "" :=
  ⟨rfl, rfl, C6_safe_b64decode_empty_on_failure "a" rfl rfl⟩

/-! ## Claim C7 -/

theorem data_append_chars (t : String) (l : List Char) :
    (t ++ String.mk l).data = t.data ++ l :=
  String.data_append t (String.mk l)

/-- C7: removing the trailing `k` padding characters (1 ≤ k ≤ 3) from a
fully padded base64 string does not change the lenient decode: the
padding step restores exactly the removed characters, so the truncated
decode succeeds and yields the same text. -/
theorem C7_missing_padding_same_decode :
    ∀ s t k, 1 ≤ k → k ≤ 3 → s = t ++ String.mk (List.replicate k '=') →
      pyLen s % 4 = 0 → _safe_b64decode s ≠ "" →
      _safe_b64decode t = _safe_b64decode s ∧ _safe_b64decode t ≠ "" := by
  intro s t k hk1 hk3 hs hmod hne
  have hlen : pyLen s = pyLen t + k := by
    rw [hs]
    unfold pyLen
    rw [data_append_chars, List.length_append, List.length_replicate]
  have hpadk : 4 - pyLen t % 4 = k := by omega
  have hpt : padB64 t = s := by
    simp only [padB64, hpadk]
    rw [if_pos (by omega : k < 4)]
    exact hs.symm
  have hps : padB64 s = s := by
    simp only [padB64, hmod]
    norm_num
  have heq : _safe_b64decode t = _safe_b64decode s := by
    simp only [_safe_b64decode]
    rw [hpt, hps]
  exact ⟨heq, fun h0 => hne (heq.symm.trans h0)⟩

/-- C7 witness: `"YQ=="` with its two padding characters removed decodes
to the same text `"a"`. -/
theorem C7_missing_padding_same_decode_witness :
    _safe_b64decode "YQ" = _safe_b64decode "YQ==" ∧ _safe_b64decode "YQ" ≠ "" :=
  C7_missing_padding_same_decode "YQ==" "YQ" 2 (by decide) (by decide) rfl rfl
    (by decide)

/-! ## Claim C9 -/

/-- C9 counterexample: the empty subscription body extracts zero links,
yet the conversion takes the empty-content early return, not the
"no links found" outcome.  (No exception is modelled anywhere: the
conversion is a total function.) -/
theorem C9_counterexample :
    convert_subscription_to_clash "" = ([], ConvertOutcome.emptyContent) ∧
    ConvertOutcome.emptyContent ≠ ConvertOutcome.noLinks :=
  ⟨rfl, by decide⟩

/-- C9 (amended): for every non-empty subscription body from which zero
links are extracted, the conversion returns the empty output collection
together with the "no links found" outcome. -/
theorem C9_no_links_outcome :
    ∀ content, content ≠ "" → extractLinks content = [] →
      convert_subscription_to_clash content = ([], ConvertOutcome.noLinks) := by
  intro c h1 h2
  unfold convert_subscription_to_clash
  rw [if_neg h1]
  simp [h2]

/-- C9 witness: the body `"hello"` (non-empty, no links, and not valid
base64 either) yields the empty collection and the no-links outcome. -/
theorem C9_no_links_outcome_witness :
    convert_subscription_to_clash "hello" = ([], ConvertOutcome.noLinks) :=
  C9_no_links_outcome "hello" (by decide) rfl

/-! ## Claim C10 -/

/-- C10 counterexample: an `ssr://` link whose decoded body
`h:x:p:m:o:YQ:z/?r` splits into seven colon fields is nevertheless
rejected, because the second field `x` is not a valid integer port —
so "more than six fields" does not guarantee the link survives. -/
theorem C10_counterexample :
    ssrB64Decode (pyDropChars "ssr://aDp4OnA6bTpvOllROnovP3I=" 6) =
      some "h:x:p:m:o:YQ:z/?r" ∧
    pySplitAll ['/', '?'] "h:x:p:m:o:YQ:z/?r".data = ["h:x:p:m:o:YQ:z".data, "r".data] ∧
    (pySplitAll [':'] "h:x:p:m:o:YQ:z".data).length = 7 ∧ 6 < 7 ∧
    parse_ssr_url "ssr://aDp4OnA6bTpvOllROnovP3I=" = none :=
  ⟨rfl, rfl, rfl, by decide, rfl⟩

/-- C10 (amended): a first part with more than six colon fields is not
by itself a reason for rejection: fields beyond the sixth are ignored,
and the parser proceeds with field 1 as server, field 2 as port and
field 6 as the encoded password — provided the port parses as an
integer and the password field decodes (otherwise the link still
fails, as the counterexample shows). -/
theorem C10_extra_fields_ignored :
    ∀ decoded a b s0 s1 s2 s3 s4 s5 rest port pw,
      pySplitAll ['/', '?'] decoded.data = [a, b] →
      pySplitAll [':'] a = s0 :: s1 :: s2 :: s3 :: s4 :: s5 :: rest →
      pyInt? (String.mk s1) = some port →
      ssrB64Decode (String.mk s5) = some pw →
      parseSsrBody decoded =
        ssrApplyParams (String.mk s0) port pw (String.mk s2) (String.mk s3) (String.mk s4)
          (String.mk b) := by
  intro decoded a b s0 s1 s2 s3 s4 s5 rest port pw h1 h2 h3 h4
  simp only [parseSsrBody, h1, h2, h3, h4]

/-- C10 witness: the amended statement applied to the seven-field body
`h:1:p:m:o:YQ:z/?r` (numeric port, decodable password); the seventh
field `z` is ignored and the link is accepted. -/
theorem C10_extra_fields_ignored_witness :
    parseSsrBody "h:1:p:m:o:YQ:z/?r" = ssrApplyParams "h" 1 "a" "p" "m" "o" "r" ∧
    (parseSsrBody "h:1:p:m:o:YQ:z/?r").isSome = true :=
  ⟨C10_extra_fields_ignored "h:1:p:m:o:YQ:z/?r" "h:1:p:m:o:YQ:z".data "r".data
      "h".data "1".data "p".data "m".data "o".data "YQ".data ["z".data] 1 "a"
      rfl rfl rfl rfl,
    rfl⟩

/-! ## Claim C4: state-machine lemmas -/

/-- From a quad boundary, a run of `=` characters is ignored and the
machine ends successfully with its accumulator. -/
theorem a2bAux_pads_from_zero (k : Nat) :
    ∀ l pd acc, a2bAux (List.replicate k '=') 0 l pd acc = some acc.reverse := by
  induction k with
  | zero => intro l pd acc; simp [a2bAux]
  | succ k ih =>
    intro l pd acc
    rw [List.replicate_succ]
    simp only [a2bAux]
    rw [if_pos (by decide : ('=' : Char).toNat = 61)]
    rw [if_neg (by omega : ¬(2 ≤ 0 ∧ 4 ≤ 0 + (pd + 1)))]
    exact ih l (pd + 1) acc

/-- Appending `=` characters to an input the machine decodes
successfully does not change the result (CPython tolerates excess
padding and stops at a completed pad sequence). -/
theorem a2bAux_append_pads (k : Nat) :
    ∀ cs q l pd acc out, a2bAux cs q l pd acc = some out →
      a2bAux (cs ++ List.replicate k '=') q l pd acc = some out := by
  intro cs
  induction cs with
  | nil =>
    intro q l pd acc out h
    simp only [a2bAux] at h
    split at h
    · rename_i hq
      subst hq
      rw [List.nil_append]
      rw [a2bAux_pads_from_zero k l pd acc]
      exact h
    · exact absurd h (by simp)
  | cons c cs' ih =>
    intro q l pd acc out h
    rw [List.cons_append]
    simp only [a2bAux] at h ⊢
    by_cases h61 : c.toNat = 61
    · rw [if_pos h61] at h ⊢
      by_cases hcond : 2 ≤ q ∧ 4 ≤ q + (pd + 1)
      · rw [if_pos hcond] at h ⊢
        exact h
      · rw [if_neg hcond] at h ⊢
        exact ih _ _ _ _ _ h
    · rw [if_neg h61] at h ⊢
      cases hbv : b64CharVal c with
      | none =>
        simp only [hbv] at h ⊢
        exact ih _ _ _ _ _ h
      | some v =>
        simp only [hbv] at h ⊢
        match q with
        | 0 => exact ih _ _ _ _ _ h
        | 1 => exact ih _ _ _ _ _ h
        | 2 => exact ih _ _ _ _ _ h
        | n + 3 => exact ih _ _ _ _ _ h

/-- A standard-alphabet data character. -/
def isStdB64Char (c : Char) : Bool :=
  (b64CharVal c).isSome

theorem isStdB64Char_ascii {c : Char} (h : isStdB64Char c = true) : c.toNat ≤ 127 := by
  by_contra hgt
  have h127 : 127 < c.toNat := by omega
  have hnone : b64CharVal c = none := by
    simp only [b64CharVal]
    rw [if_neg (by omega), if_neg (by omega), if_neg (by omega), if_neg (by omega),
      if_neg (by omega)]
  rw [isStdB64Char, hnone] at h
  exact absurd h (by simp)

theorem isStdB64Char_tr {c : Char} (h : isStdB64Char c = true) : urlsafeTr c = c := by
  have h1 : c ≠ '-' := by
    rintro rfl
    exact absurd h (by decide)
  have h2 : c ≠ '_' := by
    rintro rfl
    exact absurd h (by decide)
  rw [urlsafeTr, if_neg h1, if_neg h2]

theorem map_id_of_mem {l : List Char} {f : Char → Char} (h : ∀ c ∈ l, f c = c) :
    l.map f = l := by
  induction l with
  | nil => rfl
  | cons c rest ih =>
    rw [List.map_cons, h c (by simp), ih (fun x hx => h x (by simp [hx]))]

theorem C4_core (r : String) (j : Nat)
    (hstd : ∀ c ∈ r.data, isStdB64Char c = true)
    (hj : j ≤ 2)
    (hd : (padB64 r).data = r.data ++ List.replicate j '=')
    (hne : _safe_b64decode r ≠ "") :
    ssrB64Decode r = some (_safe_b64decode r) := by
  have hasciiR : ∀ c ∈ r.data, c.toNat ≤ 127 := fun c hc => isStdB64Char_ascii (hstd c hc)
  have hasciiD : ((padB64 r).data.all (fun c => c.toNat ≤ 127)) = true := by
    rw [hd]
    simp only [List.all_append, Bool.and_eq_true, List.all_eq_true, decide_eq_true_eq]
    exact ⟨hasciiR, fun c hc => by rw [List.eq_of_mem_replicate hc]; decide⟩
  have hmapD : (padB64 r).data.map urlsafeTr = (padB64 r).data := by
    rw [hd, List.map_append, map_id_of_mem (fun c hc => isStdB64Char_tr (hstd c hc)),
      List.map_replicate, show urlsafeTr '=' = '=' from by decide]
  have hUS : b64TextUrlsafe (padB64 r) = b64TextStd (padB64 r) := by
    unfold b64TextUrlsafe b64TextStd pyUrlsafeB64decodeBytes pyB64decodeBytes
    rw [if_pos hasciiD, if_pos hasciiD, hmapD]
  have hform : _safe_b64decode r =
      (match b64TextStd (padB64 r) with | some t => t | none => "") := by
    simp only [_safe_b64decode]
    rw [hUS]
    cases b64TextStd (padB64 r) <;> rfl
  obtain ⟨v, hv⟩ : ∃ v, b64TextStd (padB64 r) = some v := by
    cases hx : b64TextStd (padB64 r) with
    | none => rw [hform, hx] at hne; exact absurd rfl hne
    | some t => exact ⟨t, rfl⟩
  have hsafe_v : _safe_b64decode r = v := by rw [hform, hv]
  obtain ⟨bs, hbs, hutf⟩ := Option.bind_eq_some.mp
    (show (pyB64decodeBytes (padB64 r)).bind pyUtf8Decode = some v from hv)
  have hrun : a2bAux ((padB64 r).data) 0 0 0 [] = some bs := by
    unfold pyB64decodeBytes at hbs
    rw [if_pos hasciiD] at hbs
    exact hbs
  have hdata2 : (r ++ "==").data =
      (r.data ++ List.replicate j '=') ++ List.replicate (2 - j) '=' := by
    rw [String.data_append, List.append_assoc]
    have : List.replicate j '=' ++ List.replicate (2 - j) '=' = List.replicate 2 '=' := by
      rw [← List.replicate_add]
      congr 1
      omega
    rw [this]
    rfl
  have hascii2 : ((r ++ "==").data.all (fun c => c.toNat ≤ 127)) = true := by
    rw [String.data_append]
    simp only [List.all_append, Bool.and_eq_true, List.all_eq_true, decide_eq_true_eq]
    exact ⟨hasciiR, by decide⟩
  have htarget : pyB64decodeBytes (r ++ "==") = some bs := by
    unfold pyB64decodeBytes
    rw [if_pos hascii2, hdata2, ← hd]
    exact a2bAux_append_pads (2 - j) ((padB64 r).data) 0 0 0 [] bs hrun
  show (pyB64decodeBytes (r ++ "==")).bind pyUtf8Decode = some (_safe_b64decode r)
  rw [htarget, Option.some_bind, hutf, hsafe_v]

/-! ## Claim C4 -/

/-- C4 counterexample: the SSR remainder `YWI6MTpiOmM6ZDpZUS8_Pz8` is a
URL-safe-alphabet base64 payload (with one padding character missing)
that the lenient codec decodes to a well-formed SSR body, yet the
parser's actual decode — standard-alphabet `b64decode` of the remainder
plus `"=="` — fails, and the whole link is dropped. -/
theorem C4_counterexample :
    _safe_b64decode "YWI6MTpiOmM6ZDpZUS8_Pz8" = "ab:1:b:c:d:YQ/???" ∧
    ssrB64Decode "YWI6MTpiOmM6ZDpZUS8_Pz8" = none ∧
    parse_ssr_url "ssr://YWI6MTpiOmM6ZDpZUS8_Pz8" = none :=
  ⟨rfl, rfl, rfl⟩

/-- C4 (amended): the SSR parser does not use the lenient codec; it
decodes the remainder with strict standard-alphabet `b64decode` after
appending two `=`.  For remainders made of standard-alphabet characters
whose length is not 1 mod 4 (0, 1 or 2 missing padding characters),
this agrees with the lenient codec whenever the latter succeeds;
URL-safe payloads are not decoded (see the counterexample). -/
theorem C4_std_alphabet_decode_agrees :
    ∀ r, (∀ c ∈ r.data, isStdB64Char c = true) → pyLen r % 4 ≠ 1 →
      _safe_b64decode r ≠ "" →
      ssrB64Decode r = some (_safe_b64decode r) := by
  intro r hstd hlen hne
  have hm : pyLen r % 4 = 0 ∨ pyLen r % 4 = 2 ∨ pyLen r % 4 = 3 := by omega
  rcases hm with hm | hm | hm
  · refine C4_core r 0 hstd (by omega) ?_ hne
    simp only [padB64, hm]
    norm_num
  · refine C4_core r 2 hstd (by omega) ?_ hne
    simp only [padB64, hm]
    rw [if_pos (by norm_num)]
    exact data_append_chars r (List.replicate (4 - 2) '=')
  · refine C4_core r 1 hstd (by omega) ?_ hne
    simp only [padB64, hm]
    rw [if_pos (by norm_num)]
    exact data_append_chars r (List.replicate (4 - 3) '=')

/-- C4 witness: the standard-alphabet remainder `YWI6MTpiOmM6ZDpZUS8/Pz8`
(one missing padding character): the parser's decode succeeds and
matches the lenient decode `ab:1:b:c:d:YQ/???`. -/
theorem C4_std_alphabet_decode_agrees_witness :
    ssrB64Decode "YWI6MTpiOmM6ZDpZUS8/Pz8" =
      some (_safe_b64decode "YWI6MTpiOmM6ZDpZUS8/Pz8") ∧
    _safe_b64decode "YWI6MTpiOmM6ZDpZUS8/Pz8" = "ab:1:b:c:d:YQ/???" :=
  ⟨C4_std_alphabet_decode_agrees "YWI6MTpiOmM6ZDpZUS8/Pz8" (by decide) (by decide)
      (by decide),
    rfl⟩

/-! ## Claim C8 -/

theorem pyOr_truthy_default {a b : JVal} (hb : pyTruthy b = true) :
    pyTruthy (pyOr a b) = true := by
  unfold pyOr
  split
  · assumption
  · exact hb

/-- C8: for a successfully parsed vmess JSON object, if the effective
transport (`net` with default `"tcp"`) is `"ws"`, the proxy records
`network = "ws"` and a `ws-opts` structure that contains the path when
truthy and a `Host` header when truthy, and is omitted entirely when
both are empty; for any other effective transport, only the transport
value is recorded and no `ws-opts` key exists. -/
theorem C8_vmess_ws_opts :
    ∀ data p, vmessFromJson data = some p →
      (jvalEqStr (pyOr (pyGetD data "net" JVal.null) (JVal.s "tcp")) "ws" = true →
        pyGet p "network" = some (JVal.s "ws") ∧
        (pyTruthy (pyOr (pyGetD data "path" JVal.null) (JVal.s "")) = false →
          pyTruthy (pyOr (pyGetD data "host" JVal.null) (JVal.s "")) = false →
          pyGet p "ws-opts" = none) ∧
        (pyTruthy (pyOr (pyGetD data "path" JVal.null) (JVal.s "")) = true →
          ∃ w, pyGet p "ws-opts" = some (JVal.dict w) ∧
            pyGet w "path" = some (pyOr (pyGetD data "path" JVal.null) (JVal.s ""))) ∧
        (pyTruthy (pyOr (pyGetD data "host" JVal.null) (JVal.s "")) = true →
          ∃ w, pyGet p "ws-opts" = some (JVal.dict w) ∧
            pyGet w "headers" =
              some (JVal.dict [("Host", pyOr (pyGetD data "host" JVal.null) (JVal.s ""))]))) ∧
      (jvalEqStr (pyOr (pyGetD data "net" JVal.null) (JVal.s "tcp")) "ws" = false →
        pyGet p "ws-opts" = none ∧
        pyGet p "network" = some (pyOr (pyGetD data "net" JVal.null) (JVal.s "tcp"))) := by
  intro data p h
  obtain ⟨name, server, uuid, cipher, port, alterId, tlsOn, rfl⟩ := vmessFromJson_shape h
  constructor
  · intro hws
    refine ⟨?_, ?_, ?_, ?_⟩
    · rw [mkVmessProxy_get_network]
      simp [vmessNetPart, hws, pyGet]
    · intro hp hh
      rw [mkVmessProxy_get_wsopts]
      simp [vmessNetPart, hws, hp, hh, pyGet]
    · intro hp
      rw [mkVmessProxy_get_wsopts]
      cases hh : pyTruthy (pyOr (pyGetD data "host" JVal.null) (JVal.s "")) with
      | false =>
        refine ⟨[("path", pyOr (pyGetD data "path" JVal.null) (JVal.s ""))], ?_, ?_⟩ <;>
          simp [vmessNetPart, hws, hp, hh, pyGet]
      | true =>
        refine ⟨[("path", pyOr (pyGetD data "path" JVal.null) (JVal.s "")),
          ("headers", JVal.dict [("Host", pyOr (pyGetD data "host" JVal.null) (JVal.s ""))])],
          ?_, ?_⟩ <;> simp [vmessNetPart, hws, hp, hh, pyGet]
    · intro hh
      rw [mkVmessProxy_get_wsopts]
      cases hp : pyTruthy (pyOr (pyGetD data "path" JVal.null) (JVal.s "")) with
      | false =>
        refine ⟨[("headers",
          JVal.dict [("Host", pyOr (pyGetD data "host" JVal.null) (JVal.s ""))])], ?_, ?_⟩ <;>
          simp [vmessNetPart, hws, hp, hh, pyGet]
      | true =>
        refine ⟨[("path", pyOr (pyGetD data "path" JVal.null) (JVal.s "")),
          ("headers", JVal.dict [("Host", pyOr (pyGetD data "host" JVal.null) (JVal.s ""))])],
          ?_, ?_⟩ <;> simp [vmessNetPart, hws, hp, hh, pyGet]
  · intro hws
    have htr : pyTruthy (pyOr (pyGetD data "net" JVal.null) (JVal.s "tcp")) = true :=
      pyOr_truthy_default (by decide)
    constructor
    · rw [mkVmessProxy_get_wsopts]
      simp [vmessNetPart, hws, htr, pyGet]
    · rw [mkVmessProxy_get_network]
      simp [vmessNetPart, hws, htr, pyGet]

/-- The decoded JSON object of a `vmess://` link with
`"net":"ws","path":"/p","host":"h.example"`. -/
def vmessWsData : List (String × JVal) :=
  [("ps", JVal.s "W"), ("add", JVal.s "s"), ("port", JVal.i 1), ("id", JVal.s "u"),
   ("net", JVal.s "ws"), ("path", JVal.s "/p"), ("host", JVal.s "h.example")]

def vmessWsProxy : Proxy :=
  [("name", JVal.s "W"), ("type", JVal.s "vmess"), ("server", JVal.s "s"),
   ("port", JVal.i 1), ("uuid", JVal.s "u"), ("alterId", JVal.i 0),
   ("cipher", JVal.s "auto"), ("network", JVal.s "ws"),
   ("ws-opts", JVal.dict [("path", JVal.s "/p"),
     ("headers", JVal.dict [("Host", JVal.s "h.example")])])]

/-- The decoded JSON object of a `vmess://` link with a non-`ws`
transport. -/
def vmessGrpcData : List (String × JVal) :=
  [("ps", JVal.s "T"), ("add", JVal.s "s"), ("port", JVal.i 1), ("id", JVal.s "u"),
   ("net", JVal.s "grpc")]

def vmessGrpcProxy : Proxy :=
  [("name", JVal.s "T"), ("type", JVal.s "vmess"), ("server", JVal.s "s"),
   ("port", JVal.i 1), ("uuid", JVal.s "u"), ("alterId", JVal.i 0),
   ("cipher", JVal.s "auto"), ("network", JVal.s "grpc")]

/-- C8 witness: the theorem applied to a concrete `ws` object (path and
Host present in `ws-opts`) and to a concrete non-`ws` object (no
`ws-opts`, only the transport name). -/
theorem C8_vmess_ws_opts_witness :
    ((∃ w, pyGet vmessWsProxy "ws-opts" = some (JVal.dict w) ∧
        pyGet w "path" = some (JVal.s "/p")) ∧
      (∃ w, pyGet vmessWsProxy "ws-opts" = some (JVal.dict w) ∧
        pyGet w "headers" = some (JVal.dict [("Host", JVal.s "h.example")])) ∧
      pyGet vmessWsProxy "network" = some (JVal.s "ws")) ∧
    (pyGet vmessGrpcProxy "ws-opts" = none ∧
      pyGet vmessGrpcProxy "network" = some (JVal.s "grpc")) := by
  have h0 := (C8_vmess_ws_opts vmessWsData vmessWsProxy rfl).1 rfl
  have h1 := (C8_vmess_ws_opts vmessGrpcData vmessGrpcProxy rfl).2 rfl
  exact ⟨⟨h0.2.2.1 rfl, h0.2.2.2 rfl, h0.1⟩, h1⟩
